import Mathlib

/-!
Shallow embedding of the authorization subsystem of `src/app/auth.py`
(token extraction, JWKS fetching/caching, JWT verification, permission
checking, and the `requires_auth` middleware composition).

Python strings are Lean `String`s; Python's `str.split()` / `str.strip()` /
`str.lower()` are modelled below on the underlying character lists; Python
exceptions are modelled by `Except PyErr`; the module-level `JWKS_CACHE`
dict is threaded explicitly as a value of type `JwksDoc`.
-/

/-- The set of characters Python's `str.split()` / `str.strip()` treat as
whitespace (ASCII portion). -/
def isPySpace (c : Char) : Bool :=
  c = ' ' || c = '\t' || c = '\n' || c = '\r' || c = '\x0b' || c = '\x0c'

/-- Python `str.split()` with no argument on the character list: split on
runs of whitespace, discarding empty pieces. -/
def pySplitAux (acc : List Char) : List Char → List String
  | [] => if acc.isEmpty then [] else [⟨acc.reverse⟩]
  | c :: cs =>
    if isPySpace c then
      if acc.isEmpty then pySplitAux [] cs
      else ⟨acc.reverse⟩ :: pySplitAux [] cs
    else pySplitAux (c :: acc) cs

/-- Python `auth.split()`. -/
def pySplit (s : String) : List String := pySplitAux [] s.data

/-- Python `str.strip()` on a character list: drop whitespace from both
ends. -/
def pyStripList (l : List Char) : List Char :=
  ((l.dropWhile isPySpace).reverse.dropWhile isPySpace).reverse

/-- Python `perm.strip()`. -/
def pyStrip (s : String) : String := ⟨pyStripList s.data⟩

/-- Python `str.lower()` (ASCII portion, which is all the source compares). -/
def pyLower (s : String) : String := ⟨s.data.map Char.toLower⟩

/-- `AuthError(error, status_code)` from `auth.py`: the `error` dict holds a
`code` and a `description`. -/
structure AuthError where
  code : String
  description : String
  status_code : Nat
deriving DecidableEq, Repr

/-- A Python exception escaping the subsystem: either an `AuthError`, or one
of the exception types the source can raise without catching
(`IndexError` from `parts[0]` on an empty split, a jose `JWTError` from
`jwt.get_unverified_header` on a malformed token, `KeyError` from
`jwks['keys']` on a document without a `keys` field). -/
inductive PyErr where
  | authError (e : AuthError)
  | indexError
  | jwtError
  | keyError (field : String)
deriving DecidableEq, Repr

/-- `get_token_auth_header` from `auth.py`, as a function of the value of the
`Authorization` header (`none` when the header is absent).  `if not auth`
treats both `None` and the empty string as missing.  `parts[0]` on a
whitespace-only header raises `IndexError`. -/
def get_token_auth_header (auth : Option String) : Except PyErr String :=
  let a := auth.getD ""
  if a = "" then
    .error (.authError ⟨"authorization_header_missing",
      "Authorization header is expected.", 401⟩)
  else
    match pySplit a with
    | [] => .error .indexError
    | p0 :: rest =>
      if pyLower p0 ≠ "bearer" then
        .error (.authError ⟨"invalid_header",
          "Authorization header must start with \"Bearer\".", 401⟩)
      else
        match rest with
        | [] => .error (.authError ⟨"invalid_header", "Token not found.", 401⟩)
        | [t] => .ok t
        | _ :: _ :: _ => .error (.authError ⟨"invalid_header",
            "Authorization header must be bearer token.", 401⟩)

/-- The decoded JWT payload as the subsystem reads it: `check_permissions`
looks up the `permissions` claim (`none` models a payload without that
key); `sub` stands for the remaining opaque claims. -/
structure ClaimSet where
  permissions : Option (List String)
  sub : String
deriving DecidableEq, Repr

/-- `check_permissions(permission, payload)` from `auth.py`. -/
def check_permissions (permission : String) (payload : ClaimSet) :
    Except PyErr Bool :=
  match payload.permissions with
  | none => .error (.authError ⟨"invalid_claims",
      "Permissions not included in JWT.", 400⟩)
  | some perms =>
    let token_permissions := perms.map pyStrip
    if permission ∉ token_permissions then
      .error (.authError ⟨"unauthorized", "Permission not found.", 403⟩)
    else
      .ok true

deriving instance DecidableEq for Except

/-- The stages of the `requires_auth` wrapper, in the order the source runs
them, plus the invocation of the wrapped handler. -/
inductive Stage where
  | extract
  | verify
  | checkPerm
  | handler
deriving DecidableEq, Repr

/-- One record of the JWKS document, with the four fields the source reads
(`key['kty']`, `key['kid']`, `key['n']`, `key['e']`). -/
structure KeyRecord where
  kty : String
  kid : String
  n : String
  e : String
deriving DecidableEq, Repr

/-- The parsed JSON document returned by the JWKS endpoint, as a dictionary
from field names to lists of key records (`{}` is `[]`; the well-formed
shape is `[("keys", ...)]`).  Python's truthiness test `if not JWKS_CACHE`
is emptiness of this dictionary. -/
def JwksDoc : Type := List (String × List KeyRecord)

instance : DecidableEq JwksDoc := by
  unfold JwksDoc
  infer_instance

instance : EmptyCollection JwksDoc := ⟨([] : List (String × List KeyRecord))⟩

/-- Python `jwks['keys']`: dictionary lookup, `none` models `KeyError`. -/
def dictGet (d : JwksDoc) (field : String) : Option (List KeyRecord) :=
  match d with
  | [] => none
  | (k, v) :: rest => if k = field then some v else dictGet rest field

/-- Outcome of one `requests.get` of the JWKS endpoint.  `failure` covers
every `requests.exceptions.RequestException`: connection errors, timeouts,
the `HTTPError` that `raise_for_status` raises on an error status, and
invalid-JSON errors from `response.json()`.  `success doc` is a 2xx
response whose body parsed to `doc`. -/
inductive NetOutcome where
  | failure (msg : String)
  | success (doc : JwksDoc)
deriving DecidableEq

/-- Result of one call to `fetch_jwks_keys`: the returned value or raised
error, the state of the module-level `JWKS_CACHE` afterwards, and whether
the call performed the network request. -/
structure FetchResult where
  result : Except PyErr JwksDoc
  cache' : JwksDoc
  fetched : Bool
deriving DecidableEq

/-- `fetch_jwks_keys` from `auth.py`, as a function of the network's
response (consulted only when a fetch happens) and the current value of the
global `JWKS_CACHE`.  `if not JWKS_CACHE` skips the fetch exactly when the
cached dictionary is non-empty (truthy); on a `RequestException` it raises
`jwks_fetch_failed`/500 without assigning the cache. -/
def fetch_jwks_keys (resp : NetOutcome) (cache : JwksDoc) : FetchResult :=
  if cache ≠ ({} : JwksDoc) then
    ⟨.ok cache, cache, false⟩
  else
    match resp with
    | .failure _ => ⟨.error (.authError ⟨"jwks_fetch_failed",
        "Failed to fetch JWKS keys from Auth0", 500⟩), cache, true⟩
    | .success doc => ⟨.ok doc, doc, true⟩

/-- Two successive calls to `fetch_jwks_keys` with no intervening
invalidation, starting from cache state `cache`; the second call sees the
cache the first call left behind. -/
def fetchTwice (resp1 resp2 : NetOutcome) (cache : JwksDoc) :
    FetchResult × FetchResult :=
  let r1 := fetch_jwks_keys resp1 cache
  (r1, fetch_jwks_keys resp2 r1.cache')

/-- A bearer token as the jose library reads it.  `parseOk` is whether
`jwt.get_unverified_header` succeeds on the raw string (compact JWT shape);
`kid` is the optional `kid` field of the unverified header; `sigGoodWith`
is whether the RS256 signature verifies under a given key; `exp`, `aud`,
`iss` are the standard claims; `claims` is the decoded payload returned on
success. -/
structure Token where
  parseOk : Bool
  kid : Option String
  sigGoodWith : KeyRecord → Bool
  exp : Int
  aud : String
  iss : String
  claims : ClaimSet

/-- The unverified JWT header as `verify_decode_jwt` reads it: only its
optional `kid` field. -/
structure UnverifiedHeader where
  kid : Option String
deriving DecidableEq

/-- Modelled from the spec: `jose.jwt.get_unverified_header` is not part of
this repository; per the spec it parses the token's unverified header,
raising a jose error on a malformed token.  That error is raised outside
every `try` block of `verify_decode_jwt`. -/
def get_unverified_header (t : Token) : Except PyErr UnverifiedHeader :=
  if t.parseOk then .ok ⟨t.kid⟩ else .error .jwtError

/-- Exceptions `jose.jwt.decode` can raise, as `verify_decode_jwt` catches
them: `ExpiredSignatureError`, `JWTClaimsError`, and anything else. -/
inductive JoseExc where
  | expiredSignature
  | jwtClaims
  | otherJwt
deriving DecidableEq

/-- Modelled from the spec: `jose.jwt.decode` is not part of this
repository; per spec section 4.3 step 4 it verifies the RS256 signature
with the supplied key, fails with `ExpiredSignatureError` when the current
time is at or after the token's expiry claim, fails with `JWTClaimsError`
when audience or issuer does not exactly match, fails with another jose
error on any other parse/verification failure, and otherwise returns the
decoded claim set. -/
def jwt_decode (t : Token) (key : KeyRecord) (audience issuer : String)
    (now : Int) : Except JoseExc ClaimSet :=
  if ¬ t.sigGoodWith key then .error .otherJwt
  else if t.exp ≤ now then .error .expiredSignature
  else if t.aud ≠ audience ∨ t.iss ≠ issuer then .error .jwtClaims
  else .ok t.claims

/-- The `rsa_key` dictionary built from a matching JWKS record. -/
def mkRsaKey (k : KeyRecord) : KeyRecord := ⟨k.kty, k.kid, k.n, k.e⟩

/-- The `for key in jwks['keys']` loop of `verify_decode_jwt`: starting from
the falsy `rsa_key = {}` (here `none`), every record whose `kid` matches
overwrites `rsa_key`, so the scan runs over the full list. -/
def scanRsaKey (keys : List KeyRecord) (kid : String) : Option KeyRecord :=
  keys.foldl (fun acc k => if k.kid = kid then some (mkRsaKey k) else acc) none

/-- `verify_decode_jwt` from `auth.py`.  The network response, the cache
state, the configured domain/audience and the clock are explicit
parameters; the result pairs the returned payload or raised exception with
the cache state afterwards. -/
def verify_decode_jwt (resp : NetOutcome) (cache : JwksDoc) (t : Token)
    (domain audience : String) (now : Int) :
    Except PyErr ClaimSet × JwksDoc :=
  match (fetch_jwks_keys resp cache).result with
  | .error _ =>
    (.error (.authError ⟨"jwks_fetch_failed",
      "Failed to fetch JWKS keys from Auth0", 500⟩),
      (fetch_jwks_keys resp cache).cache')
  | .ok jwks =>
    match get_unverified_header t with
    | .error e => (.error e, (fetch_jwks_keys resp cache).cache')
    | .ok hdr =>
      match hdr.kid with
      | none => (.error (.authError ⟨"invalid_header",
          "Authorization malformed.", 401⟩),
          (fetch_jwks_keys resp cache).cache')
      | some kid =>
        match dictGet jwks "keys" with
        | none => (.error (.keyError "keys"),
            (fetch_jwks_keys resp cache).cache')
        | some keys =>
          match scanRsaKey keys kid with
          | none => (.error (.authError ⟨"invalid_header",
              "Unable to find the appropriate key.", 400⟩),
              (fetch_jwks_keys resp cache).cache')
          | some rsa_key =>
            match jwt_decode t rsa_key audience
                ("https://" ++ domain ++ "/") now with
            | .ok payload => (.ok payload,
                (fetch_jwks_keys resp cache).cache')
            | .error .expiredSignature =>
              (.error (.authError ⟨"token_expired", "Token expired.", 401⟩),
                (fetch_jwks_keys resp cache).cache')
            | .error .jwtClaims =>
              (.error (.authError ⟨"invalid_claims",
                "Incorrect claims. Check the audience and issuer.", 401⟩),
                (fetch_jwks_keys resp cache).cache')
            | .error .otherJwt =>
              (.error (.authError ⟨"invalid_header",
                "Unable to parse authentication token.", 400⟩),
                (fetch_jwks_keys resp cache).cache')

/-- The fixed environment one request runs in: how the jose library reads
each raw token string, the network's response to a JWKS fetch, the
configured Auth0 domain and API audience, and the current time. -/
structure AuthEnv where
  tokenOf : String → Token
  resp : NetOutcome
  domain : String
  audience : String
  now : Int

/-- Outcome of one run of the `wrapper` closure produced by
`requires_auth(permission)(f)`: the value returned or exception raised, the
list of stages that were entered, whether the wrapped handler `f` was
invoked, and the cache state afterwards. -/
structure WrapOutcome (α : Type) where
  result : Except PyErr α
  stages : List Stage
  handlerRan : Bool
  cache' : JwksDoc

/-- The `wrapper` closure of `requires_auth` from `auth.py`: runs
`get_token_auth_header`, then `verify_decode_jwt`, then
`check_permissions`, and finally calls the wrapped handler on the decoded
payload.  The `except Exception as e: raise e` of the source re-raises the
caught exception unchanged, which Except-propagation models directly. -/
def requires_auth_wrapper {α : Type} (env : AuthEnv) (permission : String)
    (handler : ClaimSet → α) (auth : Option String) (cache : JwksDoc) :
    WrapOutcome α :=
  match get_token_auth_header auth with
  | .error e => ⟨.error e, [.extract], false, cache⟩
  | .ok token =>
    match (verify_decode_jwt env.resp cache (env.tokenOf token)
        env.domain env.audience env.now).1 with
    | .error e => ⟨.error e, [.extract, .verify], false,
        (verify_decode_jwt env.resp cache (env.tokenOf token)
          env.domain env.audience env.now).2⟩
    | .ok payload =>
      match check_permissions permission payload with
      | .error e => ⟨.error e, [.extract, .verify, .checkPerm], false,
          (verify_decode_jwt env.resp cache (env.tokenOf token)
            env.domain env.audience env.now).2⟩
      | .ok _ =>
        ⟨.ok (handler payload), [.extract, .verify, .checkPerm, .handler],
          true, (verify_decode_jwt env.resp cache (env.tokenOf token)
            env.domain env.audience env.now).2⟩

/-- Whether a run of the subsystem failed with an `AuthError` (as opposed to
succeeding or escaping with some other exception type). -/
def raisesAuthError {α : Type} : Except PyErr α → Bool
  | .error (.authError _) => true
  | _ => false

/-- The first character of a string is whitespace. -/
def headIsSpace (s : String) : Bool :=
  match s.data.head? with
  | some c => isPySpace c
  | none => false

/-- The last character of a string is whitespace. -/
def lastIsSpace (s : String) : Bool :=
  match s.data.getLast? with
  | some c => isPySpace c
  | none => false

/-- Concrete key records sharing one key id, for witnesses. -/
def keyRecA : KeyRecord := ⟨"RSA", "k1", "nA", "eA"⟩

def keyRecB : KeyRecord := ⟨"RSA", "k1", "nB", "eB"⟩

/-- A populated cache and concrete tokens, for witnesses. -/
def keyRec1 : KeyRecord := ⟨"RSA", "k1", "n1", "e1"⟩

def cachePop : JwksDoc := [("keys", [keyRec1])]

def tokNoKey : Token :=
  ⟨true, some "kX", fun _ => true, 100, "aud", "https://d/",
    ⟨some ["get:actors"], "user"⟩⟩

def tokExpired : Token :=
  ⟨true, some "k1", fun _ => true, 5, "aud", "https://d/",
    ⟨some ["get:actors"], "user"⟩⟩

/-- A concrete token accepted by the modelled verification: parseable, kid
`k1` (present in `cachePop`), valid signature, expiry 100, audience `audC`,
issuer matching domain `dC`. -/
def tokOk : Token :=
  ⟨true, some "k1", fun _ => true, 100, "audC", "https://dC/",
    ⟨some ["get:actors"], "user"⟩⟩

/-- A concrete request environment for witnesses: every token string reads
as `tokOk`, the network is down (the populated cache makes that
irrelevant), clock at 10. -/
def envC : AuthEnv := ⟨fun _ => tokOk, .failure "down", "dC", "audC", 10⟩

/-- A concrete wrapped handler. -/
def handlerSub : ClaimSet → String := fun c => c.sub

/-! ### Helper lemmas about `dropWhile` and `pyStrip` -/

theorem head?_dropWhile_false {α : Type} {p : α → Bool} {l : List α} {c : α}
    (h : (l.dropWhile p).head? = some c) : p c = false := by
  induction l with
  | nil => simp [List.dropWhile] at h
  | cons a t ih =>
    by_cases hp : p a = true
    · rw [List.dropWhile_cons_of_pos hp] at h
      exact ih h
    · rw [List.dropWhile_cons_of_neg hp] at h
      simp only [List.head?_cons, Option.some.injEq] at h
      subst h
      exact Bool.not_eq_true _ ▸ hp

theorem getLast?_dropWhile {α : Type} {p : α → Bool} (l : List α)
    (h : l.dropWhile p ≠ []) : (l.dropWhile p).getLast? = l.getLast? := by
  induction l with
  | nil => simp [List.dropWhile] at h
  | cons a t ih =>
    by_cases hp : p a = true
    · rw [List.dropWhile_cons_of_pos hp] at h ⊢
      have ht : t ≠ [] := by
        intro he
        subst he
        simp [List.dropWhile] at h
      rw [ih h]
      cases t with
      | nil => exact absurd rfl ht
      | cons b t' => rw [List.getLast?_cons_cons]
    · rw [List.dropWhile_cons_of_neg hp]

/-- A stripped string never starts with a whitespace character. -/
theorem pyStripList_head (l : List Char) (c : Char)
    (h : (pyStripList l).head? = some c) : isPySpace c = false := by
  unfold pyStripList at h
  rw [List.head?_reverse] at h
  have hne : (l.dropWhile isPySpace).reverse.dropWhile isPySpace ≠ [] := by
    intro he
    rw [he] at h
    simp at h
  rw [getLast?_dropWhile _ hne, List.getLast?_reverse] at h
  exact head?_dropWhile_false h

/-- A stripped string never ends with a whitespace character. -/
theorem pyStripList_getLast (l : List Char) (c : Char)
    (h : (pyStripList l).getLast? = some c) : isPySpace c = false := by
  unfold pyStripList at h
  rw [List.getLast?_reverse] at h
  exact head?_dropWhile_false h

/-- A string with leading or trailing whitespace is never the result of
`pyStrip`. -/
theorem not_mem_map_pyStrip (p : String) (perms : List String)
    (hws : (headIsSpace p || lastIsSpace p) = true) :
    p ∉ perms.map pyStrip := by
  intro hmem
  rcases List.mem_map.1 hmem with ⟨q, _, hqp⟩
  have hdata : p.data = pyStripList q.data := by
    rw [← hqp]
    rfl
  have hws' : headIsSpace p = true ∨ lastIsSpace p = true := by simpa using hws
  rcases hws' with h1 | h2
  · unfold headIsSpace at h1
    cases hc : p.data.head? with
    | none => rw [hc] at h1; simp at h1
    | some c =>
      rw [hc] at h1
      have h1' : isPySpace c = true := h1
      rw [hdata] at hc
      rw [pyStripList_head q.data c hc] at h1'
      exact Bool.false_ne_true h1'
  · unfold lastIsSpace at h2
    cases hc : p.data.getLast? with
    | none => rw [hc] at h2; simp at h2
    | some c =>
      rw [hc] at h2
      have h2' : isPySpace c = true := h2
      rw [hdata] at hc
      rw [pyStripList_getLast q.data c hc] at h2'
      exact Bool.false_ne_true h2'

/-! ### Helper lemmas about the JWKS key scan -/

theorem foldl_scan_no_match (kid : String) (keys : List KeyRecord) :
    ∀ acc, (∀ k ∈ keys, k.kid ≠ kid) →
      keys.foldl (fun acc k => if k.kid = kid then some (mkRsaKey k) else acc)
        acc = acc := by
  induction keys with
  | nil => intro acc _; rfl
  | cons k t ih =>
    intro acc h
    rw [List.foldl_cons, if_neg (h k (List.mem_cons_self k t))]
    exact ih acc fun j hj => h j (List.mem_cons_of_mem k hj)

theorem foldl_scan_eq (kid : String) (keys : List KeyRecord) :
    ∀ acc, keys.foldl (fun acc k => if k.kid = kid then some (mkRsaKey k)
        else acc) acc =
      match keys.reverse.find? (fun k => k.kid == kid) with
      | some j => some (mkRsaKey j)
      | none => acc := by
  induction keys with
  | nil => intro acc; rfl
  | cons k t ih =>
    intro acc
    rw [List.foldl_cons, ih, List.reverse_cons, List.find?_append]
    cases hf : t.reverse.find? (fun k => k.kid == kid) with
    | some j => simp
    | none =>
      simp only [Option.none_or]
      by_cases h : k.kid = kid
      · simp [List.find?_cons, h]
      · simp [List.find?_cons, h]

/-- The scan loop computes the last matching record, phrased through
`find?` on the reversed key list. -/
theorem scanRsaKey_eq_find (keys : List KeyRecord) (kid : String) :
    scanRsaKey keys kid =
      (keys.reverse.find? (fun k => k.kid == kid)).map mkRsaKey := by
  unfold scanRsaKey
  rw [foldl_scan_eq kid keys none]
  cases keys.reverse.find? (fun k => k.kid == kid) <;> rfl

theorem scanRsaKey_eq_none (keys : List KeyRecord) (kid : String)
    (h : ∀ k ∈ keys, k.kid ≠ kid) : scanRsaKey keys kid = none := by
  unfold scanRsaKey
  exact foldl_scan_no_match kid keys none h

/-! ### Claim theorems about the key scan and `verify_decode_jwt` -/

/-- C10: When more than one record in the fetched key set has a key
identifier matching the token's `kid`, the scan does not stop at the first
match: the verification key used is built from the last matching record in
the set's order. -/
theorem scan_uses_last_match (keys : List KeyRecord) (kid : String) :
    scanRsaKey keys kid =
      (keys.reverse.find? (fun k => k.kid == kid)).map mkRsaKey ∧
    ∀ pre r post, keys = pre ++ r :: post → r.kid = kid →
      (∀ k ∈ post, k.kid ≠ kid) → scanRsaKey keys kid = some (mkRsaKey r) := by
  refine ⟨scanRsaKey_eq_find keys kid, ?_⟩
  intro pre r post hk hr hpost
  subst hk
  unfold scanRsaKey
  rw [List.foldl_append, List.foldl_cons, if_pos hr]
  exact foldl_scan_no_match kid post _ hpost

/-- Witness for C10: with two records carrying kid `k1`, the scan returns
the key built from the second (last) one. -/
theorem scan_uses_last_match_witness :
    scanRsaKey [keyRecA, keyRecB] "k1" = some (mkRsaKey keyRecB) :=
  (scan_uses_last_match [keyRecA, keyRecB] "k1").2 [keyRecA] keyRecB [] rfl
    rfl (by decide)

/-- C7: For every token whose unverified header contains a `kid` field, if
no record in the fetched key set has a matching key identifier after
scanning the full set, `verify_decode_jwt` fails with an AuthError with
code `invalid_header` and status 400. -/
theorem verify_no_matching_key (resp : NetOutcome) (cache : JwksDoc)
    (t : Token) (domain audience : String) (now : Int) (jwks : JwksDoc)
    (keys : List KeyRecord) (kid : String)
    (hf : (fetch_jwks_keys resp cache).result = .ok jwks)
    (hparse : t.parseOk = true)
    (hkid : t.kid = some kid)
    (hkeys : dictGet jwks "keys" = some keys)
    (hnomatch : ∀ k ∈ keys, k.kid ≠ kid) :
    (verify_decode_jwt resp cache t domain audience now).1 =
      .error (.authError ⟨"invalid_header",
        "Unable to find the appropriate key.", 400⟩) := by
  have hscan := scanRsaKey_eq_none keys kid hnomatch
  simp [verify_decode_jwt, get_unverified_header, hf, hparse, hkid, hkeys,
    hscan]

/-- Witness for C7: a token whose kid `kX` is absent from the key set is
rejected with `invalid_header`/400. -/
theorem verify_no_matching_key_witness :
    (verify_decode_jwt (.failure "down") cachePop tokNoKey "d" "aud" 10).1 =
      .error (.authError ⟨"invalid_header",
        "Unable to find the appropriate key.", 400⟩) :=
  verify_no_matching_key (.failure "down") cachePop tokNoKey "d" "aud" 10
    cachePop [keyRec1] "kX" rfl rfl rfl rfl (by decide)

/-- C6: For every token whose signature and key lookup succeed but whose
expiry claim is at or before the current verification time,
`verify_decode_jwt` fails with an AuthError with code `token_expired` and
status 401, regardless of whether audience, issuer, and other claims are
otherwise valid (the statement quantifies over every `domain`, `audience`
and claim set). -/
theorem verify_token_expired (resp : NetOutcome) (cache : JwksDoc)
    (t : Token) (domain audience : String) (now : Int) (jwks : JwksDoc)
    (keys : List KeyRecord) (kid : String) (rsa_key : KeyRecord)
    (hf : (fetch_jwks_keys resp cache).result = .ok jwks)
    (hparse : t.parseOk = true)
    (hkid : t.kid = some kid)
    (hkeys : dictGet jwks "keys" = some keys)
    (hmatch : scanRsaKey keys kid = some rsa_key)
    (hsig : t.sigGoodWith rsa_key = true)
    (hexp : t.exp ≤ now) :
    (verify_decode_jwt resp cache t domain audience now).1 =
      .error (.authError ⟨"token_expired", "Token expired.", 401⟩) := by
  simp [verify_decode_jwt, jwt_decode, get_unverified_header, hf, hparse,
    hkid, hkeys, hmatch, hsig, hexp]

/-- Witness for C6: a token with `exp = 5` verified at time 10, against a
populated cache and a matching key, is rejected with `token_expired`/401
even though its audience and issuer match the configuration. -/
theorem verify_token_expired_witness :
    (verify_decode_jwt (.failure "down") cachePop tokExpired "d" "aud" 10).1 =
      .error (.authError ⟨"token_expired", "Token expired.", 401⟩) :=
  verify_token_expired (.failure "down") cachePop tokExpired "d" "aud" 10
    cachePop [keyRec1] "k1" (mkRsaKey keyRec1) rfl rfl rfl rfl rfl rfl
    (by decide)

/-! ### Claim theorems about `fetch_jwks_keys` -/

/-- C9: When the key-set fetch fails, `fetch_jwks_keys` raises its
AuthError with the cache left in its prior empty state — the failed attempt
stores nothing, so the next call attempts the network fetch again. -/
theorem fetch_failure_cache_empty (msg : String) (resp2 : NetOutcome) :
    (fetch_jwks_keys (.failure msg) {}).result =
      .error (.authError ⟨"jwks_fetch_failed",
        "Failed to fetch JWKS keys from Auth0", 500⟩) ∧
    (fetch_jwks_keys (.failure msg) {}).cache' = ({} : JwksDoc) ∧
    (fetch_jwks_keys (.failure msg) {}).fetched = true ∧
    (fetch_jwks_keys resp2 (fetch_jwks_keys (.failure msg) {}).cache').fetched
      = true := by
  refine ⟨rfl, rfl, rfl, ?_⟩
  cases resp2 <;> rfl

/-- Counterexample to C5 as stated: when the fetched key-set document is
the empty JSON object `{}` (falsy in Python), both calls succeed and return
equal values, yet each of the two calls performs a network fetch — more
than one fetch in total, and the "populated" cache does not prevent network
access. -/
theorem fetch_twice_empty_doc_counterexample :
    (fetchTwice (.success {}) (.success {}) {}).1.fetched = true ∧
    (fetchTwice (.success {}) (.success {}) {}).2.fetched = true ∧
    (fetchTwice (.success {}) (.success {}) {}).1.result =
      .ok ({} : JwksDoc) ∧
    (fetchTwice (.success {}) (.success {}) {}).2.result =
      .ok ({} : JwksDoc) :=
  ⟨rfl, rfl, rfl, rfl⟩

/-- C5 amended: provided the cache already holds a non-empty document or
the first fetch returns a non-empty document, calling `fetch_jwks_keys`
twice without invalidation performs at most one network fetch in total and
both calls return equal values; and a call starting from any non-empty
cache returns the cached value with no network access. -/
theorem fetch_idempotent (resp1 resp2 : NetOutcome) (cache : JwksDoc)
    (h : cache ≠ ({} : JwksDoc) ∨
      ∃ doc, resp1 = .success doc ∧ doc ≠ ({} : JwksDoc)) :
    ¬ ((fetchTwice resp1 resp2 cache).1.fetched = true ∧
       (fetchTwice resp1 resp2 cache).2.fetched = true) ∧
    (fetchTwice resp1 resp2 cache).1.result =
      (fetchTwice resp1 resp2 cache).2.result ∧
    ∀ (resp : NetOutcome) (c : JwksDoc), c ≠ ({} : JwksDoc) →
      fetch_jwks_keys resp c = ⟨.ok c, c, false⟩ := by
  have hpop : ∀ (resp : NetOutcome) (c : JwksDoc), c ≠ ({} : JwksDoc) →
      fetch_jwks_keys resp c = ⟨.ok c, c, false⟩ := by
    intro resp c hc
    unfold fetch_jwks_keys
    rw [if_pos hc]
  rcases h with hc | ⟨doc, hr, hdoc⟩
  · refine ⟨?_, ?_, hpop⟩
    · rw [fetchTwice]
      simp only [hpop resp1 cache hc]
      simp [hpop resp2 cache hc]
    · rw [fetchTwice]
      simp only [hpop resp1 cache hc]
      simp [hpop resp2 cache hc]
  · subst hr
    by_cases hc : cache = ({} : JwksDoc)
    · subst hc
      have h1 : fetch_jwks_keys (.success doc) ({} : JwksDoc) =
          ⟨.ok doc, doc, true⟩ := by
        unfold fetch_jwks_keys
        rw [if_neg (by simp)]
      refine ⟨?_, ?_, hpop⟩
      · rw [fetchTwice]
        simp only [h1]
        simp [hpop resp2 doc hdoc]
      · rw [fetchTwice]
        simp only [h1]
        simp [hpop resp2 doc hdoc]
    · refine ⟨?_, ?_, hpop⟩
      · rw [fetchTwice]
        simp only [hpop (.success doc) cache hc]
        simp [hpop resp2 cache hc]
      · rw [fetchTwice]
        simp only [hpop (.success doc) cache hc]
        simp [hpop resp2 cache hc]

/-- Witness for the amended C5: with an empty cache and a network that
returns the populated document, the two calls return equal values and do
not both fetch. -/
theorem fetch_idempotent_witness :
    (fetchTwice (.success cachePop) (.failure "down") {}).1.result =
      (fetchTwice (.success cachePop) (.failure "down") {}).2.result :=
  (fetch_idempotent (.success cachePop) (.failure "down") {}
    (Or.inr ⟨cachePop, rfl, by decide⟩)).2.1

/-! ### Claim theorems about `check_permissions` -/

theorem check_permissions_ok_iff (p : String) (perms : List String)
    (sub : String) :
    check_permissions p ⟨some perms, sub⟩ = .ok true ↔
      p ∈ perms.map pyStrip := by
  unfold check_permissions
  by_cases h : p ∈ perms.map pyStrip
  · simp [h]
  · simp [h]

theorem check_permissions_not_mem (p : String) (perms : List String)
    (sub : String) (h : p ∉ perms.map pyStrip) :
    check_permissions p ⟨some perms, sub⟩ =
      .error (.authError ⟨"unauthorized", "Permission not found.", 403⟩) := by
  simp [check_permissions, h]

/-- Counterexample to C2 as stated: with the claim set
`{permissions: ["get:actors"], sub: "user"}`, calling `check_permissions`
with the empty required-permission string does not pass — it fails with
`unauthorized`/403, because `'' not in ['get:actors']`. -/
theorem check_permissions_empty_counterexample :
    check_permissions "" ⟨some ["get:actors"], "user"⟩ =
      .error (.authError ⟨"unauthorized", "Permission not found.", 403⟩) := by
  decide

/-- C2 amended: for every claim set containing a `permissions` entry,
calling `check_permissions` with the empty string as the required
permission succeeds if and only if some listed permission strips to the
empty string; otherwise it fails with `unauthorized`/403 — the empty
required-permission string is not special-cased. -/
theorem check_permissions_empty_iff (perms : List String) (sub : String) :
    (check_permissions "" ⟨some perms, sub⟩ = .ok true ↔
      "" ∈ perms.map pyStrip) ∧
    ("" ∉ perms.map pyStrip →
      check_permissions "" ⟨some perms, sub⟩ =
        .error (.authError ⟨"unauthorized", "Permission not found.", 403⟩)) :=
  ⟨check_permissions_ok_iff "" perms sub,
    check_permissions_not_mem "" perms sub⟩

/-- Witness for the amended C2: `["  "]` strips to `[""]`, so the empty
required permission passes there; with `["get:actors"]` it does not. -/
theorem check_permissions_empty_iff_witness :
    check_permissions "" ⟨some ["  "], "user"⟩ = .ok true :=
  (check_permissions_empty_iff ["  "] "user").1.mpr (by decide)

/-- C8: For every non-empty required permission string `p` and every claim
set containing a `permissions` list, `check_permissions` succeeds if and
only if `p` is exactly equal to some element of the list after that element
is stripped of surrounding whitespace; `p` itself is compared untrimmed, so
a required permission carrying surrounding whitespace never matches. -/
theorem check_permissions_nonempty_required (p : String)
    (perms : List String) (sub : String) (_hp : p ≠ "") :
    (check_permissions p ⟨some perms, sub⟩ = .ok true ↔
      p ∈ perms.map pyStrip) ∧
    ((headIsSpace p || lastIsSpace p) = true →
      check_permissions p ⟨some perms, sub⟩ =
        .error (.authError ⟨"unauthorized", "Permission not found.", 403⟩)) :=
  ⟨check_permissions_ok_iff p perms sub,
    fun hws => check_permissions_not_mem p perms sub
      (not_mem_map_pyStrip p perms hws)⟩

/-- Witness for C8: `get:actors` matches the stripped `"get:actors "`,
while the whitespace-carrying required string `" get:actors"` is rejected
against the same list. -/
theorem check_permissions_nonempty_required_witness :
    check_permissions "get:actors" ⟨some ["get:actors "], "user"⟩ =
      .ok true ∧
    check_permissions " get:actors" ⟨some ["get:actors "], "user"⟩ =
      .error (.authError ⟨"unauthorized", "Permission not found.", 403⟩) :=
  ⟨(check_permissions_nonempty_required "get:actors" ["get:actors "] "user"
      (by decide)).1.mpr (by decide),
   (check_permissions_nonempty_required " get:actors" ["get:actors "] "user"
      (by decide)).2 (by decide)⟩

/-! ### Claim theorems about `get_token_auth_header` -/

/-- Counterexample to C4 as stated: a present Authorization header whose
whitespace-split yields zero segments (the one-space value) does not fail
with an `invalid_header`/401 AuthError — `parts[0]` raises `IndexError`,
which is not an AuthError at all. -/
theorem get_token_zero_segments_counterexample :
    get_token_auth_header (some " ") = .error .indexError ∧
    raisesAuthError (get_token_auth_header (some " ")) = false := by
  decide

/-- C4 amended: for a present, non-empty Authorization header value, a
whitespace-split yielding zero segments escapes with `IndexError` (not an
AuthError); the remaining cases are as claimed: a first segment not
case-insensitively equal to `bearer`, exactly one segment, or more than two
segments each fail with an `invalid_header`/401 AuthError. -/
theorem get_token_auth_header_cases (a : String) (ha : a ≠ "") :
    (pySplit a = [] →
      get_token_auth_header (some a) = .error .indexError) ∧
    (∀ p0 rest, pySplit a = p0 :: rest → pyLower p0 ≠ "bearer" →
      get_token_auth_header (some a) = .error (.authError ⟨"invalid_header",
        "Authorization header must start with \"Bearer\".", 401⟩)) ∧
    (∀ p0, pySplit a = [p0] → pyLower p0 = "bearer" →
      get_token_auth_header (some a) =
        .error (.authError ⟨"invalid_header", "Token not found.", 401⟩)) ∧
    (∀ p0 p1 p2 rest, pySplit a = p0 :: p1 :: p2 :: rest →
      pyLower p0 = "bearer" →
      get_token_auth_header (some a) = .error (.authError ⟨"invalid_header",
        "Authorization header must be bearer token.", 401⟩)) := by
  refine ⟨?_, ?_, ?_, ?_⟩
  · intro hsp
    simp [get_token_auth_header, ha, hsp]
  · intro p0 rest hsp hb
    simp [get_token_auth_header, ha, hsp, hb]
  · intro p0 hsp hb
    simp [get_token_auth_header, ha, hsp, hb]
  · intro p0 p1 p2 rest hsp hb
    simp [get_token_auth_header, ha, hsp, hb]

/-- Witness for the amended C4: a wrong scheme name and a token-less
`Bearer` header are both rejected with `invalid_header`/401. -/
theorem get_token_auth_header_cases_witness :
    get_token_auth_header (some "Token abc") =
      .error (.authError ⟨"invalid_header",
        "Authorization header must start with \"Bearer\".", 401⟩) ∧
    get_token_auth_header (some "Bearer") =
      .error (.authError ⟨"invalid_header", "Token not found.", 401⟩) :=
  ⟨(get_token_auth_header_cases "Token abc" (by decide)).2.1 "Token" ["abc"]
      (by decide) (by decide),
   (get_token_auth_header_cases "Bearer" (by decide)).2.2.1 "Bearer"
      (by decide) (by decide)⟩

/-! ### Error classification of each stage -/

theorem get_token_auth_header_err_class (auth : Option String) (err : PyErr)
    (h : get_token_auth_header auth = .error err) :
    (∃ a, err = .authError a) ∨
    (err = .indexError ∧ ∃ s, auth = some s ∧ s ≠ "" ∧ pySplit s = []) := by
  cases auth with
  | none =>
    left
    exact ⟨_, (Except.error.inj h).symm⟩
  | some s =>
    by_cases hs : s = ""
    · subst hs
      left
      exact ⟨_, (Except.error.inj h).symm⟩
    · cases hsp : pySplit s with
      | nil =>
        have heq : get_token_auth_header (some s) = .error .indexError := by
          simp [get_token_auth_header, hs, hsp]
        right
        exact ⟨(Except.error.inj (heq.symm.trans h)).symm, s, rfl, hs, hsp⟩
      | cons p0 rest =>
        by_cases hb : pyLower p0 = "bearer"
        · cases rest with
          | nil =>
            have heq : get_token_auth_header (some s) =
                .error (.authError ⟨"invalid_header", "Token not found.",
                  401⟩) := by
              simp [get_token_auth_header, hs, hsp, hb]
            left
            exact ⟨_, (Except.error.inj (heq.symm.trans h)).symm⟩
          | cons p1 rest' =>
            cases rest' with
            | nil =>
              have heq : get_token_auth_header (some s) = .ok p1 := by
                simp [get_token_auth_header, hs, hsp, hb]
              exact absurd (heq.symm.trans h) (by simp)
            | cons p2 rest'' =>
              have heq : get_token_auth_header (some s) =
                  .error (.authError ⟨"invalid_header",
                    "Authorization header must be bearer token.", 401⟩) := by
                simp [get_token_auth_header, hs, hsp, hb]
              left
              exact ⟨_, (Except.error.inj (heq.symm.trans h)).symm⟩
        · have heq : get_token_auth_header (some s) =
              .error (.authError ⟨"invalid_header",
                "Authorization header must start with \"Bearer\".", 401⟩) := by
            simp [get_token_auth_header, hs, hsp, hb]
          left
          exact ⟨_, (Except.error.inj (heq.symm.trans h)).symm⟩

theorem get_unverified_header_error (t : Token) (e : PyErr)
    (h : get_unverified_header t = .error e) :
    e = .jwtError ∧ t.parseOk = false := by
  unfold get_unverified_header at h
  by_cases hp : t.parseOk = true
  · rw [if_pos hp] at h
    exact absurd h (by simp)
  · rw [if_neg hp] at h
    exact ⟨(Except.error.inj h).symm, Bool.not_eq_true _ ▸ hp⟩

theorem verify_decode_jwt_err_class (resp : NetOutcome) (cache : JwksDoc)
    (t : Token) (domain audience : String) (now : Int) (err : PyErr)
    (h : (verify_decode_jwt resp cache t domain audience now).1 =
      .error err) :
    (∃ a, err = .authError a) ∨
    (err = .jwtError ∧ t.parseOk = false) ∨
    (err = .keyError "keys") := by
  cases hf : (fetch_jwks_keys resp cache).result with
  | error e =>
    have heq : (verify_decode_jwt resp cache t domain audience now).1 =
        .error (.authError ⟨"jwks_fetch_failed",
          "Failed to fetch JWKS keys from Auth0", 500⟩) := by
      simp [verify_decode_jwt, hf]
    left
    exact ⟨_, (Except.error.inj (heq.symm.trans h)).symm⟩
  | ok jwks =>
    cases hu : get_unverified_header t with
    | error e =>
      have heq : (verify_decode_jwt resp cache t domain audience now).1 =
          .error e := by
        simp [verify_decode_jwt, hf, hu]
      rcases get_unverified_header_error t e hu with ⟨he, hp⟩
      right; left
      exact ⟨(Except.error.inj (heq.symm.trans h)).symm.trans he, hp⟩
    | ok hdr =>
      cases hk : hdr.kid with
      | none =>
        have heq : (verify_decode_jwt resp cache t domain audience now).1 =
            .error (.authError ⟨"invalid_header",
              "Authorization malformed.", 401⟩) := by
          simp [verify_decode_jwt, hf, hu, hk]
        left
        exact ⟨_, (Except.error.inj (heq.symm.trans h)).symm⟩
      | some kid =>
        cases hd : dictGet jwks "keys" with
        | none =>
          have heq : (verify_decode_jwt resp cache t domain audience now).1 =
              .error (.keyError "keys") := by
            simp [verify_decode_jwt, hf, hu, hk, hd]
          right; right
          exact (Except.error.inj (heq.symm.trans h)).symm
        | some keys =>
          cases hsc : scanRsaKey keys kid with
          | none =>
            have heq : (verify_decode_jwt resp cache t domain audience
                now).1 = .error (.authError ⟨"invalid_header",
                  "Unable to find the appropriate key.", 400⟩) := by
              simp [verify_decode_jwt, hf, hu, hk, hd, hsc]
            left
            exact ⟨_, (Except.error.inj (heq.symm.trans h)).symm⟩
          | some rsa_key =>
            cases hj : jwt_decode t rsa_key audience
                ("https://" ++ domain ++ "/") now with
            | ok payload =>
              have heq : (verify_decode_jwt resp cache t domain audience
                  now).1 = .ok payload := by
                simp [verify_decode_jwt, hf, hu, hk, hd, hsc, hj]
              exact absurd (heq.symm.trans h) (by simp)
            | error je =>
              cases je with
              | expiredSignature =>
                have heq : (verify_decode_jwt resp cache t domain audience
                    now).1 = .error (.authError ⟨"token_expired",
                      "Token expired.", 401⟩) := by
                  simp [verify_decode_jwt, hf, hu, hk, hd, hsc, hj]
                left
                exact ⟨_, (Except.error.inj (heq.symm.trans h)).symm⟩
              | jwtClaims =>
                have heq : (verify_decode_jwt resp cache t domain audience
                    now).1 = .error (.authError ⟨"invalid_claims",
                      "Incorrect claims. Check the audience and issuer.",
                      401⟩) := by
                  simp [verify_decode_jwt, hf, hu, hk, hd, hsc, hj]
                left
                exact ⟨_, (Except.error.inj (heq.symm.trans h)).symm⟩
              | otherJwt =>
                have heq : (verify_decode_jwt resp cache t domain audience
                    now).1 = .error (.authError ⟨"invalid_header",
                      "Unable to parse authentication token.", 400⟩) := by
                  simp [verify_decode_jwt, hf, hu, hk, hd, hsc, hj]
                left
                exact ⟨_, (Except.error.inj (heq.symm.trans h)).symm⟩

theorem check_permissions_err_class (p : String) (payload : ClaimSet)
    (err : PyErr) (h : check_permissions p payload = .error err) :
    ∃ a, err = .authError a := by
  unfold check_permissions at h
  cases hp : payload.permissions with
  | none =>
    rw [hp] at h
    exact ⟨_, (Except.error.inj h).symm⟩
  | some perms =>
    rw [hp] at h
    by_cases hm : p ∈ perms.map pyStrip
    · simp [hm] at h
    · simp only [hm, not_false_eq_true, if_true] at h
      exact ⟨_, (Except.error.inj h).symm⟩

/-! ### Claim theorems about the `requires_auth` composition -/

/-- Counterexample to C3 as stated: a request whose Authorization header is
the one-space string escapes the subsystem with `IndexError`, which is not
an AuthError — so not every failure is raised as an AuthError. -/
theorem auth_non_autherror_escape :
    (requires_auth_wrapper envC "get:actors" handlerSub (some " ")
      cachePop).result = .error .indexError ∧
    raisesAuthError (requires_auth_wrapper envC "get:actors" handlerSub
      (some " ") cachePop).result = false :=
  ⟨rfl, rfl⟩

/-- C3 amended: every failure of the composed subsystem is raised as
exactly one AuthError, except for three non-AuthError escapes present in
the code: `IndexError` when a present non-empty Authorization header
splits into zero segments, the jose error from
`jwt.get_unverified_header` on an unparseable token (raised outside every
`try`), and `KeyError` when the fetched document has no `keys` field.
No failure is swallowed: each escaping exception is exactly the one the
failing stage raised. -/
theorem auth_failure_classification {α : Type} (env : AuthEnv)
    (permission : String) (handler : ClaimSet → α) (auth : Option String)
    (cache : JwksDoc) (err : PyErr)
    (h : (requires_auth_wrapper env permission handler auth cache).result =
      .error err) :
    (∃ a, err = .authError a) ∨
    (err = .indexError ∧ ∃ s, auth = some s ∧ s ≠ "" ∧ pySplit s = []) ∨
    (err = .jwtError ∧ ∃ tok, get_token_auth_header auth = .ok tok ∧
      (env.tokenOf tok).parseOk = false) ∨
    (err = .keyError "keys") := by
  cases hg : get_token_auth_header auth with
  | error e =>
    have heq : (requires_auth_wrapper env permission handler auth
        cache).result = .error e := by
      simp [requires_auth_wrapper, hg]
    have he : e = err := Except.error.inj (heq.symm.trans h)
    subst he
    rcases get_token_auth_header_err_class auth e hg with ⟨a, ha⟩ | ⟨hi, hsx⟩
    · exact Or.inl ⟨a, ha⟩
    · exact Or.inr (Or.inl ⟨hi, hsx⟩)
  | ok tok =>
    cases hv : (verify_decode_jwt env.resp cache (env.tokenOf tok)
        env.domain env.audience env.now).1 with
    | error e =>
      have heq : (requires_auth_wrapper env permission handler auth
          cache).result = .error e := by
        simp [requires_auth_wrapper, hg, hv]
      have he : e = err := Except.error.inj (heq.symm.trans h)
      subst he
      rcases verify_decode_jwt_err_class env.resp cache (env.tokenOf tok)
          env.domain env.audience env.now e hv with ⟨a, ha⟩ | ⟨hj, hp⟩ | hk
      · exact Or.inl ⟨a, ha⟩
      · exact Or.inr (Or.inr (Or.inl ⟨hj, tok, hg ▸ rfl, hp⟩))
      · exact Or.inr (Or.inr (Or.inr hk))
    | ok payload =>
      cases hc : check_permissions permission payload with
      | error e =>
        have heq : (requires_auth_wrapper env permission handler auth
            cache).result = .error e := by
          simp [requires_auth_wrapper, hg, hv, hc]
        have he : e = err := Except.error.inj (heq.symm.trans h)
        subst he
        rcases check_permissions_err_class permission payload e hc
          with ⟨a, ha⟩
        exact Or.inl ⟨a, ha⟩
      | ok b =>
        have heq : (requires_auth_wrapper env permission handler auth
            cache).result = .ok (handler payload) := by
          simp [requires_auth_wrapper, hg, hv, hc]
        exact absurd (heq.symm.trans h) (by simp)

/-- Witness for the amended C3: the classification applied to the concrete
`IndexError` escape. -/
theorem auth_failure_classification_witness :
    (∃ a, PyErr.indexError = PyErr.authError a) ∨
    (PyErr.indexError = PyErr.indexError ∧
      ∃ s, (some " " : Option String) = some s ∧ s ≠ "" ∧ pySplit s = []) ∨
    (PyErr.indexError = PyErr.jwtError ∧
      ∃ tok, get_token_auth_header (some " ") = .ok tok ∧
        (envC.tokenOf tok).parseOk = false) ∨
    (PyErr.indexError = PyErr.keyError "keys") :=
  auth_failure_classification envC "get:actors" handlerSub (some " ")
    cachePop .indexError rfl

/-- C1: For every request guarded by `requires_auth`, the three stages run
in the order extract, verify, permission check; if any stage raises an
AuthError (or any exception), the remaining stages are skipped, that same
error propagates out, and the wrapped handler function is never invoked;
only when all three stages succeed does the handler run, on the decoded
payload. -/
theorem requires_auth_stage_order {α : Type} (env : AuthEnv)
    (permission : String) (handler : ClaimSet → α) (auth : Option String)
    (cache : JwksDoc) :
    (∀ e, get_token_auth_header auth = .error e →
      requires_auth_wrapper env permission handler auth cache =
        ⟨.error e, [.extract], false, cache⟩) ∧
    (∀ tok e, get_token_auth_header auth = .ok tok →
      (verify_decode_jwt env.resp cache (env.tokenOf tok) env.domain
        env.audience env.now).1 = .error e →
      requires_auth_wrapper env permission handler auth cache =
        ⟨.error e, [.extract, .verify], false,
          (verify_decode_jwt env.resp cache (env.tokenOf tok) env.domain
            env.audience env.now).2⟩) ∧
    (∀ tok payload e, get_token_auth_header auth = .ok tok →
      (verify_decode_jwt env.resp cache (env.tokenOf tok) env.domain
        env.audience env.now).1 = .ok payload →
      check_permissions permission payload = .error e →
      requires_auth_wrapper env permission handler auth cache =
        ⟨.error e, [.extract, .verify, .checkPerm], false,
          (verify_decode_jwt env.resp cache (env.tokenOf tok) env.domain
            env.audience env.now).2⟩) ∧
    (∀ tok payload b, get_token_auth_header auth = .ok tok →
      (verify_decode_jwt env.resp cache (env.tokenOf tok) env.domain
        env.audience env.now).1 = .ok payload →
      check_permissions permission payload = .ok b →
      requires_auth_wrapper env permission handler auth cache =
        ⟨.ok (handler payload), [.extract, .verify, .checkPerm, .handler],
          true, (verify_decode_jwt env.resp cache (env.tokenOf tok)
            env.domain env.audience env.now).2⟩) := by
  refine ⟨?_, ?_, ?_, ?_⟩
  · intro e hg
    simp [requires_auth_wrapper, hg]
  · intro tok e hg hv
    simp [requires_auth_wrapper, hg, hv]
  · intro tok payload e hg hv hc
    simp [requires_auth_wrapper, hg, hv, hc]
  · intro tok payload b hg hv hc
    simp [requires_auth_wrapper, hg, hv, hc]

/-- Witness for C1: a fully successful request, where all three stages
pass in order, the handler runs on the decoded claim set, and the cache is
unchanged. -/
theorem requires_auth_stage_order_witness :
    requires_auth_wrapper envC "get:actors" handlerSub (some "Bearer x")
        cachePop =
      ⟨.ok "user", [.extract, .verify, .checkPerm, .handler], true,
        cachePop⟩ :=
  (requires_auth_stage_order envC "get:actors" handlerSub (some "Bearer x")
    cachePop).2.2.2 "x" ⟨some ["get:actors"], "user"⟩ true rfl rfl rfl
